import Mathlib

/-!
Verification of the type-declaration surface of the prompt-api-types
package (src/prompt-api.ts). The package declares TypeScript shapes for a
browser-hosted language-model API. We embed the declarations in two ways:

1. A universe of JavaScript-like runtime values (JsValue) together with a
   Bool-valued structural validator for each declared shape, translated
   field by field from the interfaces in src/prompt-api.ts. Host-platform
   object kinds (Blob, ImageData, AbortSignal, DOMException, ...) are
   modelled as opaque tagged values.

2. A small abstract syntax (Ty) of TypeScript type expressions, with one
   definition per declaration of the file, recording field names, field
   optionality and field types exactly as written in the source.
-/

/-- Opaque host-platform object kinds named in src/prompt-api.ts. -/
inductive HostTag where
  | Blob
  | ImageData
  | ImageBitmap
  | VideoFrame
  | OffscreenCanvas
  | HTMLImageElement
  | SVGImageElement
  | HTMLCanvasElement
  | HTMLVideoElement
  | BufferSource
  | ArrayBuffer
  | AudioBuffer
  | AbortSignal
  | DOMException
deriving DecidableEq, Repr

/-- JavaScript-like runtime values. An object is a list of named fields;
a host value carries its kind tag plus any extra named fields (used for
intersection types such as DOMException with extra members). -/
inductive JsValue where
  | undef
  | jsNull
  | bool (b : Bool)
  | num (n : Int)
  | str (s : String)
  | arr (xs : List JsValue)
  | obj (fields : List (String × JsValue))
  | host (t : HostTag) (fields : List (String × JsValue))
  | fn
deriving Repr

/-- Look up a named field in an object field list. -/
def getField (fields : List (String × JsValue)) (k : String) : Option JsValue :=
  (fields.find? (fun p => p.1 == k)).map Prod.snd

/-- An optional field of a TypeScript interface: absent or undefined is
accepted, a present value must satisfy the field type. -/
def optField (fields : List (String × JsValue)) (k : String)
    (check : JsValue → Bool) : Bool :=
  match getField fields k with
  | none => true
  | some JsValue.undef => true
  | some v => check v

/-- A required field of a TypeScript interface: must be present and
satisfy the field type. -/
def reqField (fields : List (String × JsValue)) (k : String)
    (check : JsValue → Bool) : Bool :=
  match getField fields k with
  | none => false
  | some v => check v

def isString : JsValue → Bool
  | JsValue.str _ => true
  | _ => false

def isNumber : JsValue → Bool
  | JsValue.num _ => true
  | _ => false

def isBoolean : JsValue → Bool
  | JsValue.bool _ => true
  | _ => false

def isFunctionValue : JsValue → Bool
  | JsValue.fn => true
  | _ => false

def isHostOf (t : HostTag) : JsValue → Bool
  | JsValue.host u _ => t == u
  | _ => false

def isArrayOf (check : JsValue → Bool) : JsValue → Bool
  | JsValue.arr xs => xs.all check
  | _ => false

def isStringArray : JsValue → Bool := isArrayOf isString

/-- interface LanguageModelOptions: model?, temperature?, maxTokens?,
topP?, stream?, signal? — every field optional. -/
def isLanguageModelOptions : JsValue → Bool
  | JsValue.obj fs =>
      optField fs "model" isString &&
      optField fs "temperature" isNumber &&
      optField fs "maxTokens" isNumber &&
      optField fs "topP" isNumber &&
      optField fs "stream" isBoolean &&
      optField fs "signal" (isHostOf HostTag.AbortSignal)
  | _ => false

/-- Host kinds accepted as the value of image content, in source order. -/
def imageValueTags : List HostTag :=
  [HostTag.Blob, HostTag.ImageData, HostTag.ImageBitmap, HostTag.VideoFrame,
   HostTag.OffscreenCanvas, HostTag.HTMLImageElement, HostTag.SVGImageElement,
   HostTag.HTMLCanvasElement, HostTag.HTMLVideoElement, HostTag.BufferSource,
   HostTag.ArrayBuffer]

/-- Host kinds accepted as the value of audio content, in source order. -/
def audioValueTags : List HostTag :=
  [HostTag.Blob, HostTag.AudioBuffer, HostTag.BufferSource]

def isImageValue : JsValue → Bool
  | JsValue.host t _ => imageValueTags.contains t
  | _ => false

def isAudioValue : JsValue → Bool
  | JsValue.host t _ => audioValueTags.contains t
  | _ => false

/-- type PromptMessageContent: tagged union over type tags text, image,
audio; the tag fixes which value representations are accepted. -/
def isPromptMessageContent : JsValue → Bool
  | JsValue.obj fs =>
      match getField fs "type", getField fs "value" with
      | some (JsValue.str "text"), some v => isString v
      | some (JsValue.str "image"), some v => isImageValue v
      | some (JsValue.str "audio"), some v => isAudioValue v
      | _, _ => false
  | _ => false

/-- interface PromptResponseConstraintProperty: required type, optional
description, plus an index signature admitting further fields. -/
def isPromptResponseConstraintProperty : JsValue → Bool
  | JsValue.obj fs =>
      reqField fs "type" isString &&
      optField fs "description" isString
  | _ => false

def isPropertiesMap : JsValue → Bool
  | JsValue.obj fs => fs.all (fun p => isPromptResponseConstraintProperty p.2)
  | _ => false

/-- interface PromptResponseConstraint: type, required,
additionalProperties and properties are all required fields. -/
def isPromptResponseConstraint : JsValue → Bool
  | JsValue.obj fs =>
      reqField fs "type" isString &&
      reqField fs "required" isStringArray &&
      reqField fs "additionalProperties" isBoolean &&
      reqField fs "properties" isPropertiesMap
  | _ => false

/-- interface PromptPayloadOptions: responseConstraint and
omitResponseConstraintInput, both required. -/
def isPromptPayloadOptions : JsValue → Bool
  | JsValue.obj fs =>
      reqField fs "responseConstraint" isPromptResponseConstraint &&
      reqField fs "omitResponseConstraintInput" isBoolean
  | _ => false

/-- The three role values of ExpandedPromptPayload, in source order. -/
def roleValues : List String := ["system", "user", "assistant"]

/-- interface ExpandedPromptPayload: a role from the three-value role
union paired with one content item. -/
def isExpandedPromptPayload : JsValue → Bool
  | JsValue.obj fs =>
      reqField fs "role" (fun v =>
        match v with
        | JsValue.str s => roleValues.contains s
        | _ => false) &&
      reqField fs "content" isPromptMessageContent
  | _ => false

/-- type PromptPayload = ExpandedPromptPayload[] | string. -/
def isPromptPayload : JsValue → Bool
  | JsValue.str _ => true
  | JsValue.arr xs => xs.all isExpandedPromptPayload
  | _ => false

/-- The three content kind values, in source order. -/
def contentKindValues : List String := ["text", "image", "audio"]

/-- interface ExpectedInputOrOutput: a content kind tag and an optional
list of language codes. -/
def isExpectedInputOrOutput : JsValue → Bool
  | JsValue.obj fs =>
      reqField fs "type" (fun v =>
        match v with
        | JsValue.str s => contentKindValues.contains s
        | _ => false) &&
      optField fs "languages" isStringArray
  | _ => false

/-- The five schema type tags of LanguageModelTool.inputSchema. -/
def schemaTypeValues : List String :=
  ["string", "number", "boolean", "array", "object"]

def isSchemaTypeTag : JsValue → Bool
  | JsValue.str s => schemaTypeValues.contains s
  | _ => false

def isToolSchemaProperty : JsValue → Bool
  | JsValue.obj fs =>
      reqField fs "type" isSchemaTypeTag &&
      reqField fs "description" isString
  | _ => false

/-- interface LanguageModelTool: name, description, inputSchema and
execute, all required. -/
def isLanguageModelTool : JsValue → Bool
  | JsValue.obj fs =>
      reqField fs "name" isString &&
      reqField fs "description" isString &&
      reqField fs "inputSchema" (fun v =>
        match v with
        | JsValue.obj gs =>
            reqField gs "type" isSchemaTypeTag &&
            reqField gs "properties" (fun w =>
              match w with
              | JsValue.obj ps => ps.all (fun p => isToolSchemaProperty p.2)
              | _ => false) &&
            reqField gs "required" isStringArray
        | _ => false) &&
      reqField fs "execute" isFunctionValue
  | _ => false

/-- interface CreateOptions: expectedInputs?, expectedOutputs?,
initialPrompts?, tools?, temperature?, topK? — every field optional. -/
def isCreateOptions : JsValue → Bool
  | JsValue.obj fs =>
      optField fs "expectedInputs" (isArrayOf isExpectedInputOrOutput) &&
      optField fs "expectedOutputs" (isArrayOf isExpectedInputOrOutput) &&
      optField fs "initialPrompts" (isArrayOf isPromptPayload) &&
      optField fs "tools" (isArrayOf isLanguageModelTool) &&
      optField fs "temperature" isNumber &&
      optField fs "topK" isNumber
  | _ => false

/-- The five availability status strings, in source order. -/
def availabilityValues : List String :=
  ["available", "downloading", "downloadable", "unavailable", "unknown"]

/-- type Availability: union of the five status string literals. -/
def isAvailability : JsValue → Bool
  | JsValue.str s => availabilityValues.contains s
  | _ => false

/-- interface LanguageModelType: create and availability methods. -/
def isLanguageModelType : JsValue → Bool
  | JsValue.obj fs =>
      reqField fs "create" isFunctionValue &&
      reqField fs "availability" isFunctionValue
  | _ => false

/-- type QuotaExceededError = DOMException with required numeric fields
requested and quota. -/
def isQuotaExceededError : JsValue → Bool
  | JsValue.host HostTag.DOMException fs =>
      reqField fs "requested" isNumber &&
      reqField fs "quota" isNumber
  | _ => false

/-- The global Window augmentation of src/prompt-api.ts: an optional
LanguageModel property. -/
def isWindowShape : JsValue → Bool
  | JsValue.obj fs => optField fs "LanguageModel" isLanguageModelType
  | _ => false

/-!
Abstract syntax of the TypeScript type expressions used by the file, and
one definition per declaration, recording the source text literally:
field names, optionality and types in source order.
-/

/-- TypeScript type expressions. In objTy each field is (name, optional
flag, type). indexSig models an index signature over string keys. -/
inductive Ty where
  | tyString
  | tyNumber
  | tyBool
  | tyAny
  | tyVoid
  | litStr (s : String)
  | promise (t : Ty)
  | asyncIterable (t : Ty)
  | arrayOf (t : Ty)
  | union (ts : List Ty)
  | inter (a b : Ty)
  | ref (n : String)
  | hostTy (h : HostTag)
  | objTy (fields : List (String × Bool × Ty))
  | indexSig (valTy : Ty)
  | funTy (params : List (String × Bool × Ty)) (ret : Ty)
deriving Repr

/-- Fields of an object type, empty for other type forms. -/
def tyFields : Ty → List (String × Bool × Ty)
  | Ty.objTy fs => fs
  | _ => []

/-- Look up a field declaration by name: optional flag and type. -/
def fieldTy (t : Ty) (n : String) : Option (Bool × Ty) :=
  ((tyFields t).find? (fun f => f.1 == n)).map (fun f => f.2)

/-- Parameter list of a method field, none when absent or not a method. -/
def methodParams (t : Ty) (n : String) : Option (List (String × Bool × Ty)) :=
  match fieldTy t n with
  | some (_, Ty.funTy ps _) => some ps
  | _ => none

/-- Return type of a method field, none when absent or not a method. -/
def methodRet (t : Ty) (n : String) : Option Ty :=
  match fieldTy t n with
  | some (_, Ty.funTy _ r) => some r
  | _ => none

/-- interface LanguageModelOptions, lines 4-17. -/
def LanguageModelOptionsDecl : Ty := Ty.objTy [
  ("model", true, Ty.tyString),
  ("temperature", true, Ty.tyNumber),
  ("maxTokens", true, Ty.tyNumber),
  ("topP", true, Ty.tyNumber),
  ("stream", true, Ty.tyBool),
  ("signal", true, Ty.hostTy HostTag.AbortSignal)]

/-- type PromptMessageContent, lines 22-51. -/
def PromptMessageContentDecl : Ty := Ty.union [
  Ty.objTy [
    ("type", false, Ty.litStr "text"),
    ("value", false, Ty.tyString)],
  Ty.objTy [
    ("type", false, Ty.litStr "image"),
    ("value", false, Ty.union (imageValueTags.map Ty.hostTy))],
  Ty.objTy [
    ("type", false, Ty.litStr "audio"),
    ("value", false, Ty.union (audioValueTags.map Ty.hostTy))]]

/-- interface PromptResponseConstraintProperty, lines 56-63; the index
signature over string keys is the second intersection component. -/
def PromptResponseConstraintPropertyDecl : Ty := Ty.inter
  (Ty.objTy [
    ("type", false, Ty.tyString),
    ("description", true, Ty.tyString)])
  (Ty.indexSig Ty.tyAny)

/-- interface PromptResponseConstraint, lines 68-79. -/
def PromptResponseConstraintDecl : Ty := Ty.objTy [
  ("type", false, Ty.tyString),
  ("required", false, Ty.arrayOf Ty.tyString),
  ("additionalProperties", false, Ty.tyBool),
  ("properties", false, Ty.indexSig (Ty.ref "PromptResponseConstraintProperty"))]

/-- interface PromptPayloadOptions, lines 84-89. -/
def PromptPayloadOptionsDecl : Ty := Ty.objTy [
  ("responseConstraint", false, Ty.ref "PromptResponseConstraint"),
  ("omitResponseConstraintInput", false, Ty.tyBool)]

/-- type PromptPayload, line 94. -/
def PromptPayloadDecl : Ty := Ty.union [
  Ty.arrayOf (Ty.ref "ExpandedPromptPayload"),
  Ty.tyString]

/-- interface ExpandedPromptPayload, lines 99-104. -/
def ExpandedPromptPayloadDecl : Ty := Ty.objTy [
  ("role", false, Ty.union (roleValues.map Ty.litStr)),
  ("content", false, Ty.ref "PromptMessageContent")]

/-- interface ExpectedInputOrOutput, lines 109-114. -/
def ExpectedInputOrOutputDecl : Ty := Ty.objTy [
  ("type", false, Ty.union (contentKindValues.map Ty.litStr)),
  ("languages", true, Ty.arrayOf Ty.tyString)]

/-- interface CreateOptions, lines 119-132. -/
def CreateOptionsDecl : Ty := Ty.objTy [
  ("expectedInputs", true, Ty.arrayOf (Ty.ref "ExpectedInputOrOutput")),
  ("expectedOutputs", true, Ty.arrayOf (Ty.ref "ExpectedInputOrOutput")),
  ("initialPrompts", true, Ty.arrayOf (Ty.ref "PromptPayload")),
  ("tools", true, Ty.arrayOf (Ty.ref "LanguageModelTool")),
  ("temperature", true, Ty.tyNumber),
  ("topK", true, Ty.tyNumber)]

/-- interface LanguageModelTool, lines 137-160. -/
def LanguageModelToolDecl : Ty := Ty.objTy [
  ("name", false, Ty.tyString),
  ("description", false, Ty.tyString),
  ("inputSchema", false, Ty.objTy [
    ("type", false, Ty.union (schemaTypeValues.map Ty.litStr)),
    ("properties", false, Ty.indexSig (Ty.objTy [
      ("type", false, Ty.union (schemaTypeValues.map Ty.litStr)),
      ("description", false, Ty.tyString)])),
    ("required", false, Ty.arrayOf Ty.tyString)]),
  ("execute", false, Ty.funTy [("input", false, Ty.tyAny)]
    (Ty.union [Ty.promise Ty.tyAny, Ty.tyAny]))]

/-- type Availability, lines 165-170. -/
def AvailabilityDecl : Ty := Ty.union (availabilityValues.map Ty.litStr)

/-- interface LanguageModelType, lines 175-188. -/
def LanguageModelTypeDecl : Ty := Ty.objTy [
  ("create", false, Ty.funTy [("options", true, Ty.ref "CreateOptions")]
    (Ty.promise (Ty.ref "LanguageModelSession"))),
  ("availability", false, Ty.funTy []
    (Ty.promise (Ty.ref "Availability")))]

/-- interface LanguageModelSession, lines 193-258. -/
def LanguageModelSessionDecl : Ty := Ty.objTy [
  ("prompt", false, Ty.funTy [
      ("payload", false, Ty.ref "PromptPayload"),
      ("options", true, Ty.ref "PromptPayloadOptions")]
    (Ty.promise (Ty.ref "LanguageModelPromptResponse"))),
  ("promptStreaming", false, Ty.funTy [
      ("payload", false, Ty.ref "PromptPayload"),
      ("options", true, Ty.ref "PromptPayloadOptions")]
    (Ty.asyncIterable (Ty.ref "LanguageModelPromptResponse"))),
  ("measureInputUsage", false, Ty.funTy [
      ("payload", false, Ty.ref "PromptPayload"),
      ("options", true, Ty.ref "PromptPayloadOptions")]
    (Ty.promise Ty.tyNumber)),
  ("topK", false, Ty.tyNumber),
  ("temperature", false, Ty.tyNumber),
  ("maxTokens", false, Ty.tyNumber),
  ("inputQuota", false, Ty.tyNumber),
  ("inputUsage", false, Ty.tyNumber),
  ("addEventListener", false, Ty.funTy [
      ("event", false, Ty.tyString),
      ("callback", false, Ty.funTy [("event", false, Ty.tyAny)] Ty.tyVoid)]
    Ty.tyVoid),
  ("removeEventListener", false, Ty.funTy [
      ("event", false, Ty.tyString),
      ("callback", false, Ty.funTy [("event", false, Ty.tyAny)] Ty.tyVoid)]
    Ty.tyVoid),
  ("dispatchEvent", false, Ty.funTy [
      ("event", false, Ty.tyString),
      ("data", false, Ty.tyAny)]
    Ty.tyVoid)]

/-- type LanguageModelPromptResponse = string, line 263. -/
def LanguageModelPromptResponseDecl : Ty := Ty.tyString

/-- type QuotaExceededError, lines 268-273: DOMException intersected with
required numeric fields requested and quota. -/
def QuotaExceededErrorDecl : Ty := Ty.inter
  (Ty.hostTy HostTag.DOMException)
  (Ty.objTy [
    ("requested", false, Ty.tyNumber),
    ("quota", false, Ty.tyNumber)])

/-- Window augmentation inside declare global, lines 276-281. -/
def WindowDecl : Ty := Ty.objTy [
  ("LanguageModel", true, Ty.ref "LanguageModelType")]

/-- Every type shape declared in src/prompt-api.ts, in source order,
including the global Window augmentation. -/
def declaredTypes : List (String × Ty) := [
  ("LanguageModelOptions", LanguageModelOptionsDecl),
  ("PromptMessageContent", PromptMessageContentDecl),
  ("PromptResponseConstraintProperty", PromptResponseConstraintPropertyDecl),
  ("PromptResponseConstraint", PromptResponseConstraintDecl),
  ("PromptPayloadOptions", PromptPayloadOptionsDecl),
  ("PromptPayload", PromptPayloadDecl),
  ("ExpandedPromptPayload", ExpandedPromptPayloadDecl),
  ("ExpectedInputOrOutput", ExpectedInputOrOutputDecl),
  ("CreateOptions", CreateOptionsDecl),
  ("LanguageModelTool", LanguageModelToolDecl),
  ("Availability", AvailabilityDecl),
  ("LanguageModelType", LanguageModelTypeDecl),
  ("LanguageModelSession", LanguageModelSessionDecl),
  ("LanguageModelPromptResponse", LanguageModelPromptResponseDecl),
  ("QuotaExceededError", QuotaExceededErrorDecl),
  ("Window", WindowDecl)]

/-- Resolve a declared type name. -/
def lookupDecl (n : String) : Option Ty :=
  (declaredTypes.find? (fun p => p.1 == n)).map Prod.snd

/-- A declared shape is an error shape when it extends the host exception
type DOMException, written as an intersection with DOMException. -/
def isErrorShape : Ty → Bool
  | Ty.inter (Ty.hostTy HostTag.DOMException) _ => true
  | Ty.inter _ (Ty.hostTy HostTag.DOMException) => true
  | _ => false

/-!
Concrete values used by the claims, taken from the spec examples and the
usage example file of the repository.
-/

/-- The text content value of the spec example message. -/
def hiTextContent : JsValue :=
  JsValue.obj [("type", JsValue.str "text"), ("value", JsValue.str "hi")]

/-- A structured message pairing a given role with the example content. -/
def messageWithRole (r : String) : JsValue :=
  JsValue.obj [("role", JsValue.str r), ("content", hiTextContent)]

/-- A content item with a given type tag and value. -/
def contentWith (tag : String) (v : JsValue) : JsValue :=
  JsValue.obj [("type", JsValue.str tag), ("value", v)]

/-- The name and age properties map of the usage example constraint. -/
def nameAgeProperties : JsValue := JsValue.obj [
  ("name", JsValue.obj [("type", JsValue.str "string"),
    ("description", JsValue.str "Person name")]),
  ("age", JsValue.obj [("type", JsValue.str "number"),
    ("description", JsValue.str "Person age")])]

/-- The response constraint of the usage example file. -/
def nameAgeConstraint : JsValue := JsValue.obj [
  ("type", JsValue.str "object"),
  ("required", JsValue.arr [JsValue.str "name", JsValue.str "age"]),
  ("additionalProperties", JsValue.bool false),
  ("properties", nameAgeProperties)]

/-- The example constraint with its required field removed. -/
def constraintNoRequired : JsValue := JsValue.obj [
  ("type", JsValue.str "object"),
  ("additionalProperties", JsValue.bool false),
  ("properties", nameAgeProperties)]

/-- The example constraint with its properties field removed. -/
def constraintNoProperties : JsValue := JsValue.obj [
  ("type", JsValue.str "object"),
  ("required", JsValue.arr [JsValue.str "name", JsValue.str "age"]),
  ("additionalProperties", JsValue.bool false)]

/-!
Claims.
-/

/-- C1: prompt, promptStreaming and measureInputUsage all take the same
payload parameter, whose type is a union of a plain string and an array
of structured role and content messages, plus an optional
PromptPayloadOptions parameter; prompt returns a promise of the textual
response type (an alias of string), promptStreaming returns an async
iterable of that same textual type, and measureInputUsage returns a
promise of a number. -/
theorem C1_session_interaction_uniform :
    methodParams LanguageModelSessionDecl "prompt" =
      some [("payload", false, Ty.ref "PromptPayload"),
            ("options", true, Ty.ref "PromptPayloadOptions")] ∧
    methodParams LanguageModelSessionDecl "promptStreaming" =
      methodParams LanguageModelSessionDecl "prompt" ∧
    methodParams LanguageModelSessionDecl "measureInputUsage" =
      methodParams LanguageModelSessionDecl "prompt" ∧
    lookupDecl "PromptPayload" =
      some (Ty.union [Ty.arrayOf (Ty.ref "ExpandedPromptPayload"), Ty.tyString]) ∧
    methodRet LanguageModelSessionDecl "prompt" =
      some (Ty.promise (Ty.ref "LanguageModelPromptResponse")) ∧
    methodRet LanguageModelSessionDecl "promptStreaming" =
      some (Ty.asyncIterable (Ty.ref "LanguageModelPromptResponse")) ∧
    methodRet LanguageModelSessionDecl "measureInputUsage" =
      some (Ty.promise Ty.tyNumber) ∧
    lookupDecl "LanguageModelPromptResponse" = some Ty.tyString :=
  ⟨rfl, rfl, rfl, rfl, rfl, rfl, rfl, rfl⟩

/-- C2: Exactly one declared shape of the package is an error shape,
namely QuotaExceededError, which is the host exception type extended
with the two required numeric fields requested and quota; a value with
requested 500 and quota 200 matches the shape, while the same value
missing the quota field does not. -/
theorem C2_single_error_shape :
    (declaredTypes.filter (fun p => isErrorShape p.2)).map Prod.fst =
      ["QuotaExceededError"] ∧
    QuotaExceededErrorDecl = Ty.inter (Ty.hostTy HostTag.DOMException)
      (Ty.objTy [("requested", false, Ty.tyNumber),
                 ("quota", false, Ty.tyNumber)]) ∧
    isQuotaExceededError (JsValue.host HostTag.DOMException
      [("requested", JsValue.num 500), ("quota", JsValue.num 200)]) = true ∧
    isQuotaExceededError (JsValue.host HostTag.DOMException
      [("requested", JsValue.num 500)]) = false :=
  ⟨rfl, rfl, rfl, rfl⟩

/-- C3: The availability status type is the closed union of exactly the
five string literals available, downloading, downloadable, unavailable
and unknown: every value passing the availability validator is one of
the five strings, each of the five strings passes it, and the five are
pairwise distinct. -/
theorem C3_availability_closed_enumeration :
    AvailabilityDecl = Ty.union [Ty.litStr "available", Ty.litStr "downloading",
      Ty.litStr "downloadable", Ty.litStr "unavailable", Ty.litStr "unknown"] ∧
    (∀ s : String, isAvailability (JsValue.str s) = true ↔ s ∈ availabilityValues) ∧
    (∀ v : JsValue, isAvailability v = true →
      ∃ s, v = JsValue.str s ∧ s ∈ availabilityValues) ∧
    availabilityValues.Nodup ∧ availabilityValues.length = 5 := by
  refine ⟨rfl, ?_, ?_, by decide, rfl⟩
  · intro s
    simp [isAvailability]
  · intro v h
    cases v <;> simp [isAvailability] at h
    case str s => exact ⟨s, rfl, by simpa using h⟩

/-- C3 witness: the availability validator at the concrete string
downloadable. -/
theorem C3_availability_witness :
    isAvailability (JsValue.str "downloadable") = true :=
  (C3_availability_closed_enumeration.2.1 "downloadable").mpr (by decide)

/-- C4: The role field of a structured message is the closed union of
the three string literals system, user and assistant: the spec example
message with role user and text content hi validates, the same message
with role narrator does not, and for an arbitrary role string the
message validates exactly when the role is one of the three. -/
theorem C4_role_closed_enumeration :
    fieldTy ExpandedPromptPayloadDecl "role" = some (false,
      Ty.union [Ty.litStr "system", Ty.litStr "user", Ty.litStr "assistant"]) ∧
    isExpandedPromptPayload (messageWithRole "user") = true ∧
    isExpandedPromptPayload (messageWithRole "narrator") = false ∧
    (∀ r : String, isExpandedPromptPayload (messageWithRole r) = true ↔
      r ∈ roleValues) ∧
    roleValues = ["system", "user", "assistant"] := by
  refine ⟨rfl, by decide, by decide, ?_, rfl⟩
  intro r
  simp [messageWithRole, hiTextContent, isExpandedPromptPayload, reqField,
    getField, roleValues, isPromptMessageContent, isString]

/-- C4 witness: the structured message validator at the concrete role
assistant. -/
theorem C4_role_witness :
    isExpandedPromptPayload (messageWithRole "assistant") = true :=
  (C4_role_closed_enumeration.2.2.2.1 "assistant").mpr (by decide)

/-- C5: Prompt content is a tagged union over exactly the three kinds
text, image and audio; under the text tag exactly the string values are
accepted, under the image tag exactly the host values among the eleven
declared image representations, under the audio tag exactly the host
values among Blob, AudioBuffer and BufferSource, and any other tag
accepts nothing. -/
theorem C5_content_tagged_union :
    (∀ v, isPromptMessageContent (contentWith "text" v) = isString v) ∧
    (∀ v, isPromptMessageContent (contentWith "image" v) = isImageValue v) ∧
    (∀ v, isPromptMessageContent (contentWith "audio" v) = isAudioValue v) ∧
    (∀ t v, t ∉ contentKindValues →
      isPromptMessageContent (contentWith t v) = false) ∧
    contentKindValues = ["text", "image", "audio"] ∧
    (∀ v, isString v = true ↔ ∃ s, v = JsValue.str s) ∧
    (∀ v, isImageValue v = true ↔
      ∃ t fs, v = JsValue.host t fs ∧ t ∈ imageValueTags) ∧
    (∀ v, isAudioValue v = true ↔
      ∃ t fs, v = JsValue.host t fs ∧ t ∈ audioValueTags) ∧
    imageValueTags = [HostTag.Blob, HostTag.ImageData, HostTag.ImageBitmap,
      HostTag.VideoFrame, HostTag.OffscreenCanvas, HostTag.HTMLImageElement,
      HostTag.SVGImageElement, HostTag.HTMLCanvasElement,
      HostTag.HTMLVideoElement, HostTag.BufferSource, HostTag.ArrayBuffer] ∧
    audioValueTags = [HostTag.Blob, HostTag.AudioBuffer, HostTag.BufferSource] := by
  refine ⟨fun v => rfl, fun v => rfl, fun v => rfl, ?_, rfl, ?_, ?_, ?_, rfl, rfl⟩
  · intro t v h
    simp [contentKindValues] at h
    simp [contentWith, isPromptMessageContent, getField, List.find?,
      h.1, h.2.1, h.2.2]
  · intro v
    cases v <;> simp [isString]
  · intro v
    cases v <;> simp [isImageValue]
  · intro v
    cases v <;> simp [isAudioValue]

/-- C5 witness: content with the tag video and a string value, outside
the three declared kinds, fails validation. -/
theorem C5_content_witness :
    isPromptMessageContent (contentWith "video" (JsValue.str "x")) = false :=
  C5_content_tagged_union.2.2.2.1 "video" (JsValue.str "x") (by decide)

/-- C6: Every field of the session creation configuration bundle is
optional, the empty object is a structurally valid creation argument,
and the create operation takes one optional CreateOptions parameter and
returns a promise of a session handle. -/
theorem C6_create_options_all_optional :
    (tyFields CreateOptionsDecl).map (fun f => (f.1, f.2.1)) =
      [("expectedInputs", true), ("expectedOutputs", true),
       ("initialPrompts", true), ("tools", true),
       ("temperature", true), ("topK", true)] ∧
    isCreateOptions (JsValue.obj []) = true ∧
    methodParams LanguageModelTypeDecl "create" =
      some [("options", true, Ty.ref "CreateOptions")] ∧
    methodRet LanguageModelTypeDecl "create" =
      some (Ty.promise (Ty.ref "LanguageModelSession")) :=
  ⟨rfl, rfl, rfl, rfl⟩

/-- C7: The four fields type, required, additionalProperties and
properties of the response constraint shape are all mandatory: any
object missing one of them fails validation, the usage example
constraint with all four validates, and the same constraint without its
required or its properties field fails. -/
theorem C7_constraint_mandatory_fields :
    (tyFields PromptResponseConstraintDecl).map (fun f => (f.1, f.2.1)) =
      [("type", false), ("required", false),
       ("additionalProperties", false), ("properties", false)] ∧
    (∀ fs, getField fs "required" = none →
      isPromptResponseConstraint (JsValue.obj fs) = false) ∧
    (∀ fs, getField fs "properties" = none →
      isPromptResponseConstraint (JsValue.obj fs) = false) ∧
    (∀ fs, getField fs "type" = none →
      isPromptResponseConstraint (JsValue.obj fs) = false) ∧
    (∀ fs, getField fs "additionalProperties" = none →
      isPromptResponseConstraint (JsValue.obj fs) = false) ∧
    isPromptResponseConstraint nameAgeConstraint = true ∧
    isPromptResponseConstraint constraintNoRequired = false ∧
    isPromptResponseConstraint constraintNoProperties = false := by
  refine ⟨rfl, ?_, ?_, ?_, ?_, by decide, by decide, by decide⟩ <;>
    intro fs h <;> simp [isPromptResponseConstraint, reqField, h]

/-- C7 witness: the empty object misses every mandatory field, so it
fails constraint validation. -/
theorem C7_constraint_witness :
    isPromptResponseConstraint (JsValue.obj []) = false :=
  C7_constraint_mandatory_fields.2.1 [] rfl

/-- C8 counterexample: the per-request options parameter of a session is
declared with type PromptPayloadOptions, and a value carrying only the
optional model field of the request configuration shape, while a valid
LanguageModelOptions value, is not a valid PromptPayloadOptions value;
likewise the empty object is a valid LanguageModelOptions value but not
a valid per-request options value. -/
theorem C8_counterexample_options_shape :
    methodParams LanguageModelSessionDecl "prompt" =
      some [("payload", false, Ty.ref "PromptPayload"),
            ("options", true, Ty.ref "PromptPayloadOptions")] ∧
    isLanguageModelOptions (JsValue.obj [("model", JsValue.str "gemini-nano")]) = true ∧
    isPromptPayloadOptions (JsValue.obj [("model", JsValue.str "gemini-nano")]) = false ∧
    isLanguageModelOptions (JsValue.obj []) = true ∧
    isPromptPayloadOptions (JsValue.obj []) = false :=
  ⟨rfl, by decide, by decide, by decide, by decide⟩

/-- C8 amended: the request configuration shape LanguageModelOptions
enumerates exactly the six optional fields model, temperature,
maxTokens, topP, stream and signal, but a per-request call against a
session does not take it: all three session operations take an optional
options parameter of type PromptPayloadOptions, whose two fields are
both mandatory. -/
theorem C8_amended_request_options :
    (tyFields LanguageModelOptionsDecl).map (fun f => (f.1, f.2.1)) =
      [("model", true), ("temperature", true), ("maxTokens", true),
       ("topP", true), ("stream", true), ("signal", true)] ∧
    methodParams LanguageModelSessionDecl "prompt" =
      some [("payload", false, Ty.ref "PromptPayload"),
            ("options", true, Ty.ref "PromptPayloadOptions")] ∧
    methodParams LanguageModelSessionDecl "promptStreaming" =
      methodParams LanguageModelSessionDecl "prompt" ∧
    methodParams LanguageModelSessionDecl "measureInputUsage" =
      methodParams LanguageModelSessionDecl "prompt" ∧
    (tyFields PromptPayloadOptionsDecl).map (fun f => (f.1, f.2.1)) =
      [("responseConstraint", false), ("omitResponseConstraintInput", false)] :=
  ⟨rfl, rfl, rfl, rfl, rfl⟩

/-- C9: The global Window augmentation declares LanguageModel as an
optional property of type LanguageModelType, so an object without the
property, or with it undefined, still satisfies the Window shape: the
types do not guarantee presence of the capability object. -/
theorem C9_window_capability_optional :
    fieldTy WindowDecl "LanguageModel" = some (true, Ty.ref "LanguageModelType") ∧
    isWindowShape (JsValue.obj []) = true ∧
    isWindowShape (JsValue.obj [("LanguageModel", JsValue.undef)]) = true ∧
    isWindowShape (JsValue.obj [("LanguageModel",
      JsValue.obj [("create", JsValue.fn), ("availability", JsValue.fn)])]) = true :=
  ⟨rfl, rfl, rfl, by decide⟩

/-- C10: Both fields of the per-prompt options pair are mandatory: an
object missing responseConstraint or missing
omitResponseConstraintInput fails validation, while the usage example
value carrying both validates. -/
theorem C10_prompt_options_both_mandatory :
    (tyFields PromptPayloadOptionsDecl).map (fun f => (f.1, f.2.1)) =
      [("responseConstraint", false), ("omitResponseConstraintInput", false)] ∧
    (∀ fs, getField fs "responseConstraint" = none →
      isPromptPayloadOptions (JsValue.obj fs) = false) ∧
    (∀ fs, getField fs "omitResponseConstraintInput" = none →
      isPromptPayloadOptions (JsValue.obj fs) = false) ∧
    isPromptPayloadOptions (JsValue.obj
      [("responseConstraint", nameAgeConstraint),
       ("omitResponseConstraintInput", JsValue.bool false)]) = true ∧
    isPromptPayloadOptions (JsValue.obj
      [("responseConstraint", nameAgeConstraint)]) = false ∧
    isPromptPayloadOptions (JsValue.obj
      [("omitResponseConstraintInput", JsValue.bool false)]) = false := by
  refine ⟨rfl, ?_, ?_, by decide, by decide, by decide⟩ <;>
    intro fs h <;> simp [isPromptPayloadOptions, reqField, h]

/-- C10 witness: an object carrying only an unrelated field misses both
mandatory fields, so it fails validation. -/
theorem C10_prompt_options_witness :
    isPromptPayloadOptions (JsValue.obj [("other", JsValue.num 1)]) = false :=
  C10_prompt_options_both_mandatory.2.1 [("other", JsValue.num 1)] rfl
